import Mathlib

/-!
Shallow embedding of the LinkedIn people-search scraper (src/index.ts and the
near-identical file variants under src/unnamed/).  JavaScript strings are
modelled as Lean `String`, with the JS operations the code uses defined
explicitly; `URLSearchParams` is modelled as an ordered list of key/value
pairs with WHATWG `append`/`get`/`set`/serialisation semantics; optional
string fields use `Option String` with explicit JS truthiness.
-/

set_option autoImplicit false

namespace Scraper

/-- Does `sub` occur as a contiguous run inside `s`? -/
def charListIncludes : List Char → List Char → Bool
  | [], sub => sub.isEmpty
  | a :: t, sub => sub.isPrefixOf (a :: t) || charListIncludes t sub

/-- JS `s.includes(sub)`. -/
def jsIncludes (s sub : String) : Bool :=
  charListIncludes s.data sub.data

/-- JS `s.startsWith(p)`. -/
def jsStartsWith (s p : String) : Bool :=
  p.data.isPrefixOf s.data

/-- JS `s.trim()` (strip whitespace from both ends). -/
def jsTrim (s : String) : String :=
  String.mk (((s.data.dropWhile Char.isWhitespace).reverse.dropWhile Char.isWhitespace).reverse)

/-- JS `s.split(c)[0]`: the segment before the first occurrence of `c`. -/
def jsSplitHead (s : String) (c : Char) : String :=
  String.mk (s.data.takeWhile (fun a => a != c))

/-- JS regex test `/^\d+$/.test s`: non-empty and all digits. -/
def isAllDigits (s : String) : Bool :=
  !s.data.isEmpty && s.data.all Char.isDigit

/-- JS `s.toUpperCase()` (ASCII, which is all the code compares against). -/
def jsToUpperCase (s : String) : String :=
  String.mk (s.data.map Char.toUpper)

/-- JS truthiness of an optional string: present and non-empty. -/
def optTruthy : Option String → Bool
  | some s => s != ""
  | none => false

/-- JS `o || d` for an optional string `o`: the string if truthy, else `d`. -/
def jsOrDefault (o : Option String) (d : String) : String :=
  match o with
  | some s => if s = "" then d else s
  | none => d

/-- UTF-8 bytes of a character (as natural numbers below 256). -/
def utf8Bytes (c : Char) : List Nat :=
  let n := c.toNat
  if n < 128 then [n]
  else if n < 2048 then [192 + n / 64, 128 + n % 64]
  else if n < 65536 then [224 + n / 4096, 128 + n / 64 % 64, 128 + n % 64]
  else [240 + n / 262144, 128 + n / 4096 % 64, 128 + n / 64 % 64, 128 + n % 64]

/-- Upper-case hexadecimal digit for a value below 16. -/
def hexDigit (n : Nat) : Char :=
  if n < 10 then Char.ofNat (48 + n) else Char.ofNat (55 + n)

/-- Characters `URLSearchParams` serialises unescaped
(`application/x-www-form-urlencoded` set). -/
def isFormSafe (c : Char) : Bool :=
  c.isAlphanum || c == '*' || c == '-' || c == '.' || c == '_'

/-- Encoding of one character in `application/x-www-form-urlencoded` form. -/
def encodeChar (c : Char) : List Char :=
  if c == ' ' then ['+']
  else if isFormSafe c then [c]
  else ((utf8Bytes c).map (fun b => ['%', hexDigit (b / 16), hexDigit (b % 16)])).flatten

/-- Encoding of a string in `application/x-www-form-urlencoded` form. -/
def urlencode (s : String) : String :=
  String.mk ((s.data.map encodeChar).flatten)

/-- A `URLSearchParams` value: the ordered list of name/value pairs. -/
abbrev Params := List (String × String)

/-- Model of `URLSearchParams.append`: add a pair at the end. -/
def paramsAppend (ps : Params) (k v : String) : Params :=
  ps ++ [(k, v)]

/-- Model of `URLSearchParams.get`: first value for the name, else null. -/
def paramsGet (ps : Params) (k : String) : Option String :=
  match ps with
  | [] => none
  | (k', v) :: rest => if k' = k then some v else paramsGet rest k

/-- Remove every pair with the given name. -/
def paramsRemoveAll (ps : Params) (k : String) : Params :=
  ps.filter (fun p => p.1 != k)

/-- Model of `URLSearchParams.set`: overwrite the first pair with the name and drop the
others, or append when the name is absent. -/
def paramsSet (ps : Params) (k v : String) : Params :=
  match ps with
  | [] => [(k, v)]
  | (k', v') :: rest =>
    if k' = k then (k, v) :: paramsRemoveAll rest k
    else (k', v') :: paramsSet rest k v

/-- Model of `URLSearchParams.toString`: ampersand-joined urlencoded pairs. -/
def paramsToString (ps : Params) : String :=
  String.intercalate "&" (ps.map (fun p => urlencode p.1 ++ "=" ++ urlencode p.2))

/-- The `SearchFilters` interface of `src/index.ts`. -/
structure SearchFilters where
  keywords : Option String
  location : Option String
  network : Option String
deriving DecidableEq

/-- Model of `addKeywordsToParams` of `src/index.ts` (lines 417-421). -/
def addKeywordsToParams (ps : Params) (filters : SearchFilters) : Params :=
  match filters.keywords with
  | some k => if k = "" then ps else paramsAppend ps "keywords" k
  | none => ps

/-- Model of `addLocationToParams` of `src/index.ts` (lines 423-441). -/
def addLocationToParams (ps : Params) (filters : SearchFilters) : Params :=
  let location := jsOrDefault filters.location "104195383"
  if isAllDigits location then
    paramsAppend (paramsAppend ps "origin" "FACETED_SEARCH") "geoUrn" ("[\"" ++ location ++ "\"]")
  else
    let locationKeywords :=
      match paramsGet ps "keywords" with
      | some existingKeywords =>
        if existingKeywords = "" then location
        else existingKeywords ++ " " ++ location
      | none => location
    paramsSet ps "keywords" locationKeywords

/-- Model of `addNetworkToParams` of `src/index.ts` (lines 443-470); the `Bool` result
records whether the invalid-filter diagnostic (the default branch of the
switch) was emitted. -/
def addNetworkToParams (ps : Params) (filters : SearchFilters) : Params × Bool :=
  match filters.network with
  | none => (ps, false)
  | some n =>
    if n = "" then (ps, false)
    else
      let network := jsToUpperCase n
      if network = "F" then
        (paramsAppend (paramsAppend ps "origin" "FACETED_SEARCH") "network" "[\"F\"]", false)
      else if network = "S" then
        (paramsAppend (paramsAppend ps "origin" "FACETED_SEARCH") "network" "[\"S\"]", false)
      else if network = "O" then
        (paramsAppend (paramsAppend ps "origin" "FACETED_SEARCH") "network" "[\"O\"]", false)
      else
        (ps, true)

/-- Base URL of `buildSearchUrl`. -/
def peopleSearchBaseUrl : String :=
  "https://www.linkedin.com/search/results/people/"

/-- The parameter list built by `buildSearchUrl` (lines 406-415), together
with the invalid-network diagnostic flag. -/
def buildSearchParams (filters : SearchFilters) : Params × Bool :=
  addNetworkToParams (addLocationToParams (addKeywordsToParams [] filters) filters) filters

/-- Model of `buildSearchUrl` of `src/index.ts` (lines 406-415). -/
def buildSearchUrl (filters : SearchFilters) : String :=
  peopleSearchBaseUrl ++ "?" ++ paramsToString (buildSearchParams filters).1

/-- The effective location used by `addLocationToParams`: the given location,
or the fixed default code when absent (or empty, which JS treats as absent). -/
def effectiveLocation (filters : SearchFilters) : String :=
  jsOrDefault filters.location "104195383"

/-- Number of occurrences of a name/value pair in a parameter list. -/
def countPair : Params → String × String → Nat
  | [], _ => 0
  | p :: ps, kv => countPair ps kv + (if p = kv then 1 else 0)

/-- A DOM element as the extractors see it: its `href` attribute
(`getAttribute` returns a string or null) and its text content. -/
structure DomNode where
  href : Option String
  text : Option String

/-- A Playwright element handle: `$(selector)` returns the first matching
descendant or null, `textContent()` the handle's own text. -/
structure ElemHandle where
  query : String → Option DomNode
  text : Option String

/-- The link-selector chain of `extractProfileUrl` (lines 335-340). -/
def linkSelectors : List String :=
  ["a[href*=\"/in/\"]",
   ".app-aware-link[href*=\"/in/\"]",
   ".search-result__result-link",
   "[data-control-name=\"search_srp_result\"]"]

/-- The name-selector chain of `extractProfileName` (lines 366-371). -/
def nameSelectors : List String :=
  [".entity-result__title-text a span[aria-hidden=\"true\"]",
   ".search-result__result-link span[aria-hidden=\"true\"]",
   ".actor-name",
   ".search-result__result-link"]

/-- The headline-selector chain of `extractProfileHeadline` (lines 387-391). -/
def headlineSelectors : List String :=
  [".entity-result__primary-subtitle",
   ".search-result__snippets",
   ".subline-level-1"]

/-- The results-container selector chain of `extractProfileLinks`
(lines 237-242). -/
def searchSelectors : List String :=
  [".search-results-container",
   ".search-results__list",
   ".reusable-search__result-container",
   "[data-chameleon-result-urn]"]

/-- The result-row selector chain of `getProfileElements` (lines 294-299). -/
def profileSelectors : List String :=
  [".reusable-search__result-container",
   ".search-result",
   ".entity-result",
   "[data-chameleon-result-urn]"]

/-- Model of `cleanProfileUrl` of `src/index.ts` (lines 353-363): drop everything from
the first question mark, then prefix the host when the remainder is not an
absolute http URL. -/
def cleanProfileUrl (url : String) : String :=
  let cleanUrl := jsSplitHead url '?'
  if jsStartsWith cleanUrl "http" then cleanUrl
  else "https://www.linkedin.com" ++ cleanUrl

/-- Selector loop of `extractProfileUrl` (lines 342-350). -/
def extractProfileUrlGo (elem : ElemHandle) : List String → Option String
  | [] => none
  | sel :: rest =>
    match (elem.query sel).bind DomNode.href with
    | some href =>
      if jsIncludes href "/in/" then some (cleanProfileUrl href)
      else extractProfileUrlGo elem rest
    | none => extractProfileUrlGo elem rest

/-- Model of `extractProfileUrl` of `src/index.ts` (lines 334-351). -/
def extractProfileUrl (elem : ElemHandle) : Option String :=
  extractProfileUrlGo elem linkSelectors

/-- One step of the text-field selector chains: query the selector, take the
text or the empty string, trim, succeed when non-empty (the shared shape of
every name/headline/location/about/sub-field extractor). -/
def trimmedTextAt (q : String → Option DomNode) (sel : String) : Option String :=
  match q sel with
  | some node =>
    let t := jsTrim (node.text.getD "")
    if t = "" then none else some t
  | none => none

/-- A text-field selector chain: first selector whose trimmed text is
non-empty wins, later selectors are not consulted. -/
def firstTrimmedText (q : String → Option DomNode) : List String → Option String
  | [] => none
  | sel :: rest =>
    match trimmedTextAt q sel with
    | some t => some t
    | none => firstTrimmedText q rest

/-- Model of `extractProfileName` of `src/index.ts` (lines 365-384), with its
positional fallback. -/
def extractProfileName (elem : ElemHandle) (index : Nat) : String :=
  (firstTrimmedText elem.query nameSelectors).getD ("Profile " ++ toString (index + 1))

/-- Model of `extractProfileHeadline` of `src/index.ts` (lines 386-404). -/
def extractProfileHeadline (elem : ElemHandle) : Option String :=
  firstTrimmedText elem.query headlineSelectors

/-- The `LinkedInProfileLink` interface of `src/index.ts` (lines 26-30). -/
structure LinkedInProfileLink where
  name : String
  profileUrl : String
  headline : Option String
deriving DecidableEq

/-- Model of `extractSingleProfile` of `src/index.ts` (lines 312-332): skip the element
when no profile URL is found, otherwise assemble the record. -/
def extractSingleProfile (elem : ElemHandle) (index : Nat) : Option LinkedInProfileLink :=
  match extractProfileUrl elem with
  | none => none
  | some profileUrl =>
    some { name := extractProfileName elem index,
           profileUrl := profileUrl,
           headline := extractProfileHeadline elem }

/-- A rendered search-results page: which wait-for selectors resolve, and the
element list each `$$` selector yields. -/
structure SearchPage where
  hasSelector : String → Bool
  queryAll : String → List ElemHandle

/-- An element-list selector chain (`getProfileElements`, the experience,
education and skills chains): first selector with a non-empty result set
wins, later selectors are not consulted. -/
def firstNonEmptyChain {α : Type} (query : String → List α) : List String → List α
  | [] => []
  | sel :: rest =>
    let elements := query sel
    if elements.isEmpty then firstNonEmptyChain query rest else elements

/-- Model of `getProfileElements` of `src/index.ts` (lines 291-310). -/
def getProfileElements (page : SearchPage) : List ElemHandle :=
  firstNonEmptyChain page.queryAll profileSelectors

/-- Model of `extractProfileLinks` of `src/index.ts` (lines 230-289): the container
lookup only logs, rows come from `getProfileElements`, and each row is fed to
`extractSingleProfile` with its index, null results being dropped. -/
def extractProfileLinks (page : SearchPage) : List LinkedInProfileLink :=
  let profileElements := getProfileElements page
  if profileElements.isEmpty then []
  else profileElements.enum.filterMap (fun p => extractSingleProfile p.2 p.1)

/-- The JSON payload of the search-linkedin-people tool handler
(lines 560-570). -/
structure SearchToolResult where
  success : Bool
  count : Nat
  profiles : List LinkedInProfileLink
deriving DecidableEq

/-- The success path of the CallToolRequestSchema handler for
search-linkedin-people (lines 556-570). -/
def handleSearchPeople (page : SearchPage) : SearchToolResult :=
  let profiles := extractProfileLinks page
  { success := true, count := profiles.length, profiles := profiles }

/-- Observable browser actions of one search operation. -/
inductive PageEvent where
  | navigate (url : String)
  | submitCredentials
  | saveCookies
  | extract
deriving DecidableEq

/-- The login page `loginToLinkedIn` navigates to. -/
def loginPageUrl : String := "https://www.linkedin.com/login"

/-- The logged-in test applied to the current URL (lines 134 and 167). -/
def urlIndicatesLoggedIn (u : String) : Bool :=
  jsIncludes u "/feed/" || jsIncludes u "/in/"

/-- The browser responses one search operation can observe: whether the
login-wall field is visible after the first navigation, the URL after
navigating to the login page, and the URL after submitting credentials. -/
structure BrowserEnv where
  loginWallVisible : Bool
  urlAfterLoginNav : String
  urlAfterSubmit : String

/-- Model of `loginToLinkedIn` of `src/index.ts` (lines 119-180): navigate to the
login page; done if already logged in; otherwise submit credentials once,
then classify the resulting URL (challenge throws, which the surrounding
catch turns into false; success saves cookies; anything else fails). -/
def loginToLinkedIn (env : BrowserEnv) : List PageEvent × Bool :=
  if urlIndicatesLoggedIn env.urlAfterLoginNav then
    ([PageEvent.navigate loginPageUrl], true)
  else if jsIncludes env.urlAfterSubmit "/challenge/" then
    ([PageEvent.navigate loginPageUrl, PageEvent.submitCredentials], false)
  else if urlIndicatesLoggedIn env.urlAfterSubmit then
    ([PageEvent.navigate loginPageUrl, PageEvent.submitCredentials, PageEvent.saveCookies], true)
  else
    ([PageEvent.navigate loginPageUrl, PageEvent.submitCredentials], false)

/-- Model of `searchPeople` of `src/index.ts` (lines 182-228): navigate to the encoded
URL; when the login wall is visible run `loginToLinkedIn` once, failing the
operation if it fails, else re-navigate to the same URL; then extract. -/
def searchPeople (filters : SearchFilters) (env : BrowserEnv) (page : SearchPage) :
    List PageEvent × Except String (List LinkedInProfileLink) :=
  let searchUrl := buildSearchUrl filters
  if env.loginWallVisible then
    match loginToLinkedIn env with
    | (loginTrace, true) =>
      (PageEvent.navigate searchUrl :: loginTrace ++ [PageEvent.navigate searchUrl, PageEvent.extract],
       Except.ok (extractProfileLinks page))
    | (loginTrace, false) =>
      (PageEvent.navigate searchUrl :: loginTrace,
       Except.error "Failed to log in to LinkedIn")
  else
    ([PageEvent.navigate searchUrl, PageEvent.extract], Except.ok (extractProfileLinks page))

/-- Number of occurrences of an event in a trace. -/
def countEvent : List PageEvent → PageEvent → Nat
  | [], _ => 0
  | x :: xs, e => countEvent xs e + (if x = e then 1 else 0)

/-- A rendered single-profile page (`src/unnamed/part_000`): `$` and `$$`. -/
structure ProfilePage where
  query : String → Option DomNode
  queryAll : String → List ElemHandle

/-- Name chain of `extractProfileNameFromPage` (part_000 lines 599-604). -/
def pageNameSelectors : List String :=
  [".pv-text-details__left-panel h1",
   ".pv-top-card--list-bullet .pv-text-details__left-panel h1",
   ".pv-top-card--list .pv-text-details__left-panel h1",
   ".pv-top-card .pv-text-details__left-panel h1"]

/-- Headline chain of `extractProfileHeadlineFromPage` (part_000 624-629). -/
def pageHeadlineSelectors : List String :=
  [".pv-text-details__left-panel .text-body-medium.break-words",
   ".pv-top-card--list-bullet .text-body-medium.break-words",
   ".pv-top-card .pv-text-details__left-panel .text-body-medium",
   ".pv-top-card--list .pv-text-details__left-panel .text-body-medium"]

/-- Location chain of `extractProfileLocation` (part_000 649-653). -/
def pageLocationSelectors : List String :=
  [".pv-text-details__left-panel .text-body-small.inline.t-black--light.break-words",
   ".pv-top-card--list-bullet .text-body-small.inline.t-black--light.break-words",
   ".pv-top-card .pv-text-details__left-panel .text-body-small.inline"]

/-- About chain of `extractProfileAbout` (part_000 681-685). -/
def aboutSelectors : List String :=
  [".pv-about-section .pv-shared-text-with-see-more",
   ".pv-about__summary-text",
   "#about .pv-shared-text-with-see-more"]

/-- Model of `extractProfileNameFromPage` of part_000 (lines 596-619): name chain with
the Unknown sentinel as fallback. -/
def extractProfileNameFromPage (page : ProfilePage) : String :=
  (firstTrimmedText page.query pageNameSelectors).getD "Unknown"

/-- Model of `extractProfileHeadlineFromPage` of part_000 (lines 621-644). -/
def extractProfileHeadlineFromPage (page : ProfilePage) : Option String :=
  firstTrimmedText page.query pageHeadlineSelectors

/-- Model of `extractProfileLocation` of part_000 (lines 646-668). -/
def extractProfileLocation (page : ProfilePage) : Option String :=
  firstTrimmedText page.query pageLocationSelectors

/-- Model of `extractProfileAbout` of part_000 (lines 670-699). -/
def extractProfileAbout (page : ProfilePage) : Option String :=
  firstTrimmedText page.query aboutSelectors

/-- Experience row chain (part_000 lines 712-715). -/
def experienceSelectors : List String :=
  [".pv-experience-section .pv-profile-section__list-item",
   "#experience .pv-profile-section__list-item"]

/-- Title chain of `extractExperienceTitle` (part_000 753-756). -/
def titleSelectors : List String :=
  [".pv-entity__summary-info h3",
   ".pv-entity__summary-info .t-16.t-black.t-bold"]

/-- Company chain of `extractExperienceCompany` (part_000 769-772). -/
def companySelectors : List String :=
  [".pv-entity__secondary-title",
   ".pv-entity__summary-info .t-14.t-black.t-normal"]

/-- Duration chain of `extractExperienceDuration` (part_000 785-788). -/
def durationSelectors : List String :=
  [".pv-entity__date-range",
   ".pv-entity__summary-info .t-14.t-black--light"]

/-- Description chain of `extractExperienceDescription` (part_000 801-804). -/
def descriptionSelectors : List String :=
  [".pv-entity__description",
   ".pv-entity__extra-details"]

/-- One experience entry (part_000 line 701). -/
structure ExperienceItem where
  title : String
  company : String
  duration : String
  description : Option String
deriving DecidableEq

/-- One iteration of the experience loop (part_000 722-740): keep the entry
when title or company was found (the chains never yield an empty string, so
JS truthiness is Option.isSome), defaulting each missing sub-field to its
Unknown sentinel. -/
def extractExperienceItem (e : ElemHandle) : Option ExperienceItem :=
  let title := firstTrimmedText e.query titleSelectors
  let company := firstTrimmedText e.query companySelectors
  let duration := firstTrimmedText e.query durationSelectors
  let description := firstTrimmedText e.query descriptionSelectors
  if title.isSome || company.isSome then
    some { title := title.getD "Unknown Title",
           company := company.getD "Unknown Company",
           duration := duration.getD "Unknown Duration",
           description := description }
  else none

/-- Model of `extractProfileExperience` of part_000 (lines 701-750). -/
def extractProfileExperience (page : ProfilePage) : List ExperienceItem :=
  (firstNonEmptyChain page.queryAll experienceSelectors).filterMap extractExperienceItem

/-- Education row chain (part_000 820-823). -/
def educationSelectors : List String :=
  [".pv-education-section .pv-profile-section__list-item",
   "#education .pv-profile-section__list-item"]

/-- One education entry (part_000 line 816). -/
structure EducationItem where
  school : String
  degree : Option String
  years : Option String
deriving DecidableEq

/-- One iteration of the education loop (part_000 830-846): the entry is kept
only when the school chain succeeds; degree and years stay optional. -/
def extractEducationItem (e : ElemHandle) : Option EducationItem :=
  match firstTrimmedText e.query [".pv-entity__school-name"] with
  | some school =>
    some { school := school,
           degree := firstTrimmedText e.query [".pv-entity__degree-name"],
           years := firstTrimmedText e.query [".pv-entity__dates"] }
  | none => none

/-- Model of `extractProfileEducation` of part_000 (lines 816-856). -/
def extractProfileEducation (page : ProfilePage) : List EducationItem :=
  (firstNonEmptyChain page.queryAll educationSelectors).filterMap extractEducationItem

/-- Skills row chain (part_000 927-930). -/
def skillsSelectors : List String :=
  [".pv-skills-section .pv-skill-category-entity",
   "#skills .pv-skill-category-entity"]

/-- Model of `extractProfileSkills` of part_000 (lines 897-957): each skill element
contributes its trimmed text when non-empty. -/
def extractProfileSkills (page : ProfilePage) : List String :=
  (firstNonEmptyChain page.queryAll skillsSelectors).filterMap (fun e =>
    match e.text with
    | some s => if jsTrim s = "" then none else some (jsTrim s)
    | none => none)

/-- The `LinkedInProfile` record (part_000), as assembled by the success path
of `extractProfileData` (part_000 lines 555-594). -/
structure LinkedInProfile where
  name : String
  headline : Option String
  location : Option String
  about : Option String
  experience : List ExperienceItem
  education : List EducationItem
  skills : List String
  profileUrl : String
deriving DecidableEq

/-- Model of `extractProfileData` of part_000 (lines 555-594), success path. -/
def extractProfileData (page : ProfilePage) (profileUrl : String) : LinkedInProfile :=
  { name := extractProfileNameFromPage page,
    headline := extractProfileHeadlineFromPage page,
    location := extractProfileLocation page,
    about := extractProfileAbout page,
    experience := extractProfileExperience page,
    education := extractProfileEducation page,
    skills := extractProfileSkills page,
    profileUrl := profileUrl }

/-- The keyword value the non-digit location branch merges into the
`keywords` parameter: existing keywords plus the location, space-separated,
or the bare location when no keywords were appended. -/
def mergedKeywords (filters : SearchFilters) : String :=
  match filters.keywords with
  | some k => if k = "" then effectiveLocation filters else k ++ " " ++ effectiveLocation filters
  | none => effectiveLocation filters

theorem countPair_append (ps qs : Params) (kv : String × String) :
    countPair (ps ++ qs) kv = countPair ps kv + countPair qs kv := by
  induction ps with
  | nil => simp [countPair]
  | cons p ps ih => simp [countPair, ih]; omega

theorem addKeywords_mem_key {filters : SearchFilters} {kv : String × String}
    (h : kv ∈ addKeywordsToParams [] filters) : kv.1 = "keywords" := by
  rcases filters with ⟨kw, loc, net⟩
  cases kw with
  | none => simp [addKeywordsToParams] at h
  | some k =>
    by_cases hk : k = "" <;>
      simp [addKeywordsToParams, paramsAppend, hk] at h
    subst h; rfl

theorem addLocation_digit (ps : Params) (filters : SearchFilters)
    (h : isAllDigits (effectiveLocation filters) = true) :
    addLocationToParams ps filters =
      ps ++ [("origin", "FACETED_SEARCH"),
             ("geoUrn", "[\"" ++ effectiveLocation filters ++ "\"]")] := by
  have h' : isAllDigits (jsOrDefault filters.location "104195383") = true := h
  simp [addLocationToParams, h', paramsAppend, effectiveLocation]

theorem addLocation_nondigit (filters : SearchFilters)
    (h : isAllDigits (effectiveLocation filters) = false) :
    addLocationToParams (addKeywordsToParams [] filters) filters =
      [("keywords", mergedKeywords filters)] := by
  have h' : isAllDigits (jsOrDefault filters.location "104195383") = false := h
  rcases filters with ⟨kw, loc, net⟩
  cases kw with
  | none =>
    simp [addKeywordsToParams, addLocationToParams, h', paramsGet, paramsSet,
      mergedKeywords, effectiveLocation]
  | some k =>
    by_cases hk : k = "" <;>
      simp [addKeywordsToParams, addLocationToParams, h', paramsGet, paramsSet,
        paramsAppend, paramsRemoveAll, mergedKeywords, effectiveLocation, hk]

theorem locKw_mem_key {filters : SearchFilters} {kv : String × String}
    (h : kv ∈ addLocationToParams (addKeywordsToParams [] filters) filters) :
    kv.1 = "keywords" ∨ kv.1 = "origin" ∨ kv.1 = "geoUrn" := by
  cases hd : isAllDigits (effectiveLocation filters) with
  | true =>
    rw [addLocation_digit _ _ hd] at h
    rcases List.mem_append.mp h with h1 | h2
    · exact Or.inl (addKeywords_mem_key h1)
    · simp at h2
      rcases h2 with rfl | rfl
      · exact Or.inr (Or.inl rfl)
      · exact Or.inr (Or.inr rfl)
  | false =>
    rw [addLocation_nondigit _ hd] at h
    simp at h
    subst h; exact Or.inl rfl

theorem addNetwork_none (ps : Params) (filters : SearchFilters)
    (h : filters.network = none) : addNetworkToParams ps filters = (ps, false) := by
  simp [addNetworkToParams, h]

theorem addNetwork_emptyStr (ps : Params) (filters : SearchFilters)
    (h : filters.network = some "") : addNetworkToParams ps filters = (ps, false) := by
  simp [addNetworkToParams, h]

theorem jsToUpperCase_empty_iff (n : String) : jsToUpperCase n = "" ↔ n = "" := by
  rcases n with ⟨l⟩
  cases l with
  | nil => simp [jsToUpperCase]
  | cons a t => simp [jsToUpperCase, String.ext_iff]

theorem addNetwork_code (ps : Params) (filters : SearchFilters) (n c : String)
    (hn : filters.network = some n) (hc : jsToUpperCase n = c)
    (hcv : c = "F" ∨ c = "S" ∨ c = "O") :
    addNetworkToParams ps filters =
      (ps ++ [("origin", "FACETED_SEARCH"), ("network", "[\"" ++ c ++ "\"]")], false) := by
  have hne : ¬n = "" := by
    intro he
    rw [he] at hc
    have : c = "" := by simpa [jsToUpperCase] using hc.symm
    rcases hcv with rfl | rfl | rfl <;> simp at this
  rcases hcv with rfl | rfl | rfl <;>
    simp [addNetworkToParams, hn, hne, hc, paramsAppend]

theorem addNetwork_invalid (ps : Params) (filters : SearchFilters) (n : String)
    (hn : filters.network = some n) (hne : ¬n = "")
    (hF : ¬jsToUpperCase n = "F") (hS : ¬jsToUpperCase n = "S")
    (hO : ¬jsToUpperCase n = "O") :
    addNetworkToParams ps filters = (ps, true) := by
  simp [addNetworkToParams, hn, hne, hF, hS, hO]

theorem addNetwork_fst_shape (ps : Params) (filters : SearchFilters) :
    ∃ tail, (addNetworkToParams ps filters).1 = ps ++ tail ∧
      ∀ kv ∈ tail, kv.1 = "origin" ∨ kv.1 = "network" := by
  rcases filters with ⟨kw, loc, net⟩
  cases net with
  | none => exact ⟨[], by simp [addNetworkToParams], by simp⟩
  | some n =>
    by_cases hne : n = ""
    · exact ⟨[], by simp [addNetworkToParams, hne], by simp⟩
    by_cases hF : jsToUpperCase n = "F"
    · refine ⟨[("origin", "FACETED_SEARCH"), ("network", "[\"F\"]")], ?_, by simp⟩
      simp [addNetworkToParams, hne, hF, paramsAppend]
    by_cases hS : jsToUpperCase n = "S"
    · refine ⟨[("origin", "FACETED_SEARCH"), ("network", "[\"S\"]")], ?_, by simp⟩
      simp [addNetworkToParams, hne, hF, hS, paramsAppend]
    by_cases hO : jsToUpperCase n = "O"
    · refine ⟨[("origin", "FACETED_SEARCH"), ("network", "[\"O\"]")], ?_, by simp⟩
      simp [addNetworkToParams, hne, hF, hS, hO, paramsAppend]
    · exact ⟨[], by simp [addNetworkToParams, hne, hF, hS, hO], by simp⟩

theorem countPair_eq_zero {ps : Params} {k v : String}
    (h : ∀ kv ∈ ps, ¬kv.1 = k) : countPair ps (k, v) = 0 := by
  induction ps with
  | nil => rfl
  | cons p rest ih =>
    have hp := h p (List.mem_cons_self p rest)
    have hne : ¬p = (k, v) := fun he => hp (by rw [he])
    simp [countPair, hne, ih (fun kv hkv => h kv (List.mem_cons_of_mem _ hkv))]

/-- C1 (amended): the search-URL encoder emits `origin=FACETED_SEARCH`
together with a `geoUrn` parameter whose value is the single-element list
containing exactly the effective location (the given location when
non-empty, or the default code `104195383` when the location is absent or
empty) if and only if that effective location is all digits; for a
non-digit effective location no `geoUrn` parameter appears and the location
text is merged space-separated into the `keywords` parameter (becoming the
whole keywords value when no keywords were given). -/
theorem c1_geoUrn_iff_digit_location (filters : SearchFilters) :
    (isAllDigits (effectiveLocation filters) = true →
      ("origin", "FACETED_SEARCH") ∈ (buildSearchParams filters).1 ∧
      ("geoUrn", "[\"" ++ effectiveLocation filters ++ "\"]") ∈ (buildSearchParams filters).1) ∧
    (isAllDigits (effectiveLocation filters) = false →
      (∀ v, ("geoUrn", v) ∉ (buildSearchParams filters).1) ∧
      paramsGet (buildSearchParams filters).1 "keywords" = some (mergedKeywords filters)) := by
  obtain ⟨tail, htail, hkeys⟩ :=
    addNetwork_fst_shape (addLocationToParams (addKeywordsToParams [] filters) filters) filters
  have hbp : (buildSearchParams filters).1 =
      addLocationToParams (addKeywordsToParams [] filters) filters ++ tail := htail
  constructor
  · intro hd
    rw [hbp, addLocation_digit _ _ hd]
    constructor <;> simp
  · intro hd
    rw [hbp, addLocation_nondigit _ hd]
    constructor
    · intro v hv
      rcases List.mem_append.mp hv with h1 | h2
      · simp at h1
      · have := hkeys _ h2
        simp at this
    · simp [paramsGet]

/-- Witness for C1: a digit location yields the `geoUrn` parameter, a
free-text location is merged into `keywords`. -/
theorem c1_geoUrn_iff_digit_location_witness :
    ("geoUrn", "[\"" ++ effectiveLocation (SearchFilters.mk (some "ai") (some "105646813") none) ++ "\"]") ∈
      (buildSearchParams (SearchFilters.mk (some "ai") (some "105646813") none)).1 ∧
    paramsGet (buildSearchParams (SearchFilters.mk none (some "San Francisco") none)).1 "keywords" =
      some (mergedKeywords (SearchFilters.mk none (some "San Francisco") none)) :=
  ⟨((c1_geoUrn_iff_digit_location (SearchFilters.mk (some "ai") (some "105646813") none)).1 (by decide)).2,
   ((c1_geoUrn_iff_digit_location (SearchFilters.mk none (some "San Francisco") none)).2 (by decide)).2⟩

/-- Counterexample for C1 as stated: the present-but-empty location "" is
not absent, and under the claim its non-digit effective location should
yield no `geoUrn` and a keywords merge; the encoder instead treats it like
an absent location (JS falsiness), emitting the default-code `geoUrn`
parameter and leaving `keywords` unset. -/
theorem c1_counterexample :
    isAllDigits "" = false ∧
    ("geoUrn", "[\"104195383\"]") ∈ (buildSearchParams (SearchFilters.mk none (some "") none)).1 ∧
    paramsGet (buildSearchParams (SearchFilters.mk none (some "") none)).1 "keywords" = none := by
  exact ⟨rfl, by decide, rfl⟩

/-- C3 (amended): the encoder accepts the network codes F, S, O
case-insensitively (uppercasing the input), emitting `origin=FACETED_SEARCH`
and a `network` parameter with the single-element list of the code; the
name "first" is not mapped to "F" but rejected with a diagnostic and
contributes no network parameter. -/
theorem c3_network_codes (filters : SearchFilters) (n : String)
    (hn : filters.network = some n) :
    (jsToUpperCase n = "F" →
      ("origin", "FACETED_SEARCH") ∈ (buildSearchParams filters).1 ∧
      ("network", "[\"F\"]") ∈ (buildSearchParams filters).1) ∧
    (jsToUpperCase n = "S" →
      ("origin", "FACETED_SEARCH") ∈ (buildSearchParams filters).1 ∧
      ("network", "[\"S\"]") ∈ (buildSearchParams filters).1) ∧
    (jsToUpperCase n = "O" →
      ("origin", "FACETED_SEARCH") ∈ (buildSearchParams filters).1 ∧
      ("network", "[\"O\"]") ∈ (buildSearchParams filters).1) ∧
    (n = "first" →
      (buildSearchParams filters).2 = true ∧
      ∀ v, ("network", v) ∉ (buildSearchParams filters).1) := by
  refine ⟨fun hF => ?_, fun hS => ?_, fun hO => ?_, fun hfirst => ?_⟩
  · have hnet := addNetwork_code
      (addLocationToParams (addKeywordsToParams [] filters) filters) filters n "F" hn hF (Or.inl rfl)
    have h1 : (buildSearchParams filters).1 =
        addLocationToParams (addKeywordsToParams [] filters) filters ++
          [("origin", "FACETED_SEARCH"), ("network", "[\"F\"]")] := by
      unfold buildSearchParams
      rw [hnet]
      rfl
    rw [h1]
    constructor <;> simp
  · have hnet := addNetwork_code
      (addLocationToParams (addKeywordsToParams [] filters) filters) filters n "S" hn hS (Or.inr (Or.inl rfl))
    have h1 : (buildSearchParams filters).1 =
        addLocationToParams (addKeywordsToParams [] filters) filters ++
          [("origin", "FACETED_SEARCH"), ("network", "[\"S\"]")] := by
      unfold buildSearchParams
      rw [hnet]
      rfl
    rw [h1]
    constructor <;> simp
  · have hnet := addNetwork_code
      (addLocationToParams (addKeywordsToParams [] filters) filters) filters n "O" hn hO (Or.inr (Or.inr rfl))
    have h1 : (buildSearchParams filters).1 =
        addLocationToParams (addKeywordsToParams [] filters) filters ++
          [("origin", "FACETED_SEARCH"), ("network", "[\"O\"]")] := by
      unfold buildSearchParams
      rw [hnet]
      rfl
    rw [h1]
    constructor <;> simp
  · subst hfirst
    have hinv := addNetwork_invalid
      (addLocationToParams (addKeywordsToParams [] filters) filters) filters "first" hn
      (by decide) (by decide) (by decide) (by decide)
    constructor
    · unfold buildSearchParams
      rw [hinv]
    · intro v hv
      have h1 : (buildSearchParams filters).1 =
          addLocationToParams (addKeywordsToParams [] filters) filters := by
        unfold buildSearchParams
        rw [hinv]
      rw [h1] at hv
      have := locKw_mem_key hv
      simp at this

/-- Counterexample for C3 as stated: for the input network value "first"
the encoder emits no network parameter at all (the parameter list holds
only the default-location pair) and raises the invalid-filter diagnostic,
instead of mapping "first" to "F". -/
theorem c3_counterexample :
    buildSearchParams (SearchFilters.mk none none (some "first")) =
      ([("origin", "FACETED_SEARCH"), ("geoUrn", "[\"104195383\"]")], true) := by
  rfl

/-- Witness for C3 (amended) at the codes "F" and "first". -/
theorem c3_network_codes_witness :
    ("network", "[\"F\"]") ∈ (buildSearchParams (SearchFilters.mk none none (some "F"))).1 ∧
    (buildSearchParams (SearchFilters.mk none none (some "first"))).2 = true :=
  ⟨((c3_network_codes (SearchFilters.mk none none (some "F")) "F" rfl).1 (by decide)).2,
   ((c3_network_codes (SearchFilters.mk none none (some "first")) "first" rfl).2.2.2 rfl).1⟩

/-- C4 (amended): a non-empty network value outside the accepted codes
(F, S, O case-insensitively) contributes no network parameter, records the
diagnostic, and yields a URL byte-identical to the same filters with the
network absent.  (An empty-string value is treated as absent: identical URL
and no parameter, but no diagnostic — see the counterexample.) -/
theorem c4_invalid_network (filters : SearchFilters) (n : String)
    (hn : filters.network = some n) (hne : ¬n = "")
    (hF : ¬jsToUpperCase n = "F") (hS : ¬jsToUpperCase n = "S")
    (hO : ¬jsToUpperCase n = "O") :
    (buildSearchParams filters).2 = true ∧
    (∀ v, ("network", v) ∉ (buildSearchParams filters).1) ∧
    buildSearchUrl filters = buildSearchUrl { filters with network := none } := by
  have hinv := addNetwork_invalid
    (addLocationToParams (addKeywordsToParams [] filters) filters) filters n hn hne hF hS hO
  refine ⟨?_, ?_, ?_⟩
  · unfold buildSearchParams
    rw [hinv]
  · intro v hv
    have h1 : (buildSearchParams filters).1 =
        addLocationToParams (addKeywordsToParams [] filters) filters := by
      unfold buildSearchParams
      rw [hinv]
    rw [h1] at hv
    have := locKw_mem_key hv
    simp at this
  · rcases filters with ⟨kw, loc, net⟩
    have hn' : net = some n := hn
    subst hn'
    have e2 : (buildSearchParams (SearchFilters.mk kw loc (some n))).1 =
        addLocationToParams (addKeywordsToParams [] (SearchFilters.mk kw loc (some n)))
          (SearchFilters.mk kw loc (some n)) := by
      unfold buildSearchParams
      rw [hinv]
    have e3 : (buildSearchParams (SearchFilters.mk kw loc none)).1 =
        addLocationToParams (addKeywordsToParams [] (SearchFilters.mk kw loc none))
          (SearchFilters.mk kw loc none) := by
      unfold buildSearchParams
      rw [addNetwork_none _ _ rfl]
    show peopleSearchBaseUrl ++ "?" ++ paramsToString (buildSearchParams (SearchFilters.mk kw loc (some n))).1 =
      peopleSearchBaseUrl ++ "?" ++ paramsToString (buildSearchParams (SearchFilters.mk kw loc none)).1
    rw [e2, e3]
    rfl

/-- Counterexample for C4 as stated: the empty-string network value is
outside the valid set, and the encoder indeed adds no parameter and leaves
the URL unchanged, but it does not record the diagnostic (the claim asserts
it does for every out-of-set value). -/
theorem c4_counterexample :
    ¬(jsToUpperCase "" = "F" ∨ jsToUpperCase "" = "S" ∨ jsToUpperCase "" = "O") ∧
    (buildSearchParams (SearchFilters.mk none none (some ""))).2 = false ∧
    buildSearchUrl (SearchFilters.mk none none (some "")) =
      buildSearchUrl (SearchFilters.mk none none none) := by
  exact ⟨by decide, rfl, rfl⟩

/-- Witness for C4 (amended) at the invalid value "X". -/
theorem c4_invalid_network_witness :
    (buildSearchParams (SearchFilters.mk none none (some "X"))).2 = true ∧
    buildSearchUrl (SearchFilters.mk none none (some "X")) =
      buildSearchUrl (SearchFilters.mk none none none) := by
  have h := c4_invalid_network (SearchFilters.mk none none (some "X")) "X" rfl
    (by decide) (by decide) (by decide) (by decide)
  exact ⟨h.1, h.2.2⟩

/-- C9: with a pure-digit effective location and a valid network code, the
parameter pair `origin=FACETED_SEARCH` occurs twice, appended once by the
location encoder and once by the network encoder. -/
theorem c9_duplicate_origin (filters : SearchFilters) (n : String)
    (hn : filters.network = some n)
    (hd : isAllDigits (effectiveLocation filters) = true)
    (hv : jsToUpperCase n = "F" ∨ jsToUpperCase n = "S" ∨ jsToUpperCase n = "O") :
    countPair (buildSearchParams filters).1 ("origin", "FACETED_SEARCH") = 2 := by
  obtain ⟨c, hc, hcv⟩ : ∃ c, jsToUpperCase n = c ∧ (c = "F" ∨ c = "S" ∨ c = "O") := by
    rcases hv with h | h | h
    exacts [⟨"F", h, Or.inl rfl⟩, ⟨"S", h, Or.inr (Or.inl rfl)⟩, ⟨"O", h, Or.inr (Or.inr rfl)⟩]
  have hnet := addNetwork_code
    (addLocationToParams (addKeywordsToParams [] filters) filters) filters n c hn hc hcv
  have h1 : (buildSearchParams filters).1 =
      (addKeywordsToParams [] filters ++
        [("origin", "FACETED_SEARCH"), ("geoUrn", "[\"" ++ effectiveLocation filters ++ "\"]")]) ++
        [("origin", "FACETED_SEARCH"), ("network", "[\"" ++ c ++ "\"]")] := by
    unfold buildSearchParams
    rw [hnet, addLocation_digit _ _ hd]
  have hkw : countPair (addKeywordsToParams [] filters) ("origin", "FACETED_SEARCH") = 0 :=
    countPair_eq_zero (fun kv hkv he =>
      absurd ((addKeywords_mem_key hkv).symm.trans he) (by decide))
  have hgeo : ¬(("geoUrn", "[\"" ++ effectiveLocation filters ++ "\"]") :
      String × String) = ("origin", "FACETED_SEARCH") := by simp
  have hnetp : ¬(("network", "[\"" ++ c ++ "\"]") : String × String) =
      ("origin", "FACETED_SEARCH") := by simp
  rw [h1, countPair_append, countPair_append, hkw]
  simp [countPair, hgeo, hnetp]

/-- Witness for C9: digit location and network code F give the origin pair
twice. -/
theorem c9_duplicate_origin_witness :
    countPair (buildSearchParams (SearchFilters.mk (some "ai") (some "105646813") (some "F"))).1
      ("origin", "FACETED_SEARCH") = 2 :=
  c9_duplicate_origin (SearchFilters.mk (some "ai") (some "105646813") (some "F")) "F"
    rfl (by decide) (Or.inl (by decide))

theorem data_append (s t : String) : (s ++ t).data = s.data ++ t.data := by
  rcases s with ⟨a⟩
  rcases t with ⟨b⟩
  rfl

theorem firstNonEmptyChain_skip {α : Type} (query : String → List α)
    (pre rest : List String) (h : ∀ s ∈ pre, query s = []) :
    firstNonEmptyChain query (pre ++ rest) = firstNonEmptyChain query rest := by
  induction pre with
  | nil => rfl
  | cons a pre ih =>
    have ha : query a = [] := h a (List.mem_cons_self a pre)
    simp only [List.cons_append, firstNonEmptyChain, ha]
    simpa using ih (fun s hs => h s (List.mem_cons_of_mem _ hs))

theorem firstNonEmptyChain_head {α : Type} (query : String → List α)
    (sel : String) (rest : List String) (h : ¬query sel = []) :
    firstNonEmptyChain query (sel :: rest) = query sel := by
  simp [firstNonEmptyChain, List.isEmpty_iff, h]

theorem firstTrimmedText_skip (q : String → Option DomNode)
    (pre rest : List String) (h : ∀ s ∈ pre, trimmedTextAt q s = none) :
    firstTrimmedText q (pre ++ rest) = firstTrimmedText q rest := by
  induction pre with
  | nil => rfl
  | cons a pre ih =>
    have ha : trimmedTextAt q a = none := h a (List.mem_cons_self a pre)
    simp only [List.cons_append, firstTrimmedText, ha]
    exact ih (fun s hs => h s (List.mem_cons_of_mem _ hs))

theorem firstTrimmedText_all_none (q : String → Option DomNode)
    (sels : List String) (h : ∀ s ∈ sels, trimmedTextAt q s = none) :
    firstTrimmedText q sels = none := by
  have := firstTrimmedText_skip q sels [] h
  simpa using this

/-- C7: a selector chain in which every candidate before the matching one
fails returns exactly the matching candidate's own result, the same value a
single-candidate chain would give; this holds for element-list chains
(`getProfileElements` and the section chains) and for text chains
(`extractProfileName` and the other field extractors). -/
theorem c7_selector_chain :
    (∀ (α : Type) (query : String → List α) (pre post : List String) (sel : String),
      (∀ s ∈ pre, query s = []) → ¬query sel = [] →
      firstNonEmptyChain query (pre ++ sel :: post) = query sel ∧
      firstNonEmptyChain query [sel] = query sel) ∧
    (∀ (q : String → Option DomNode) (pre post : List String) (sel : String) (t : String),
      (∀ s ∈ pre, trimmedTextAt q s = none) → trimmedTextAt q sel = some t →
      firstTrimmedText q (pre ++ sel :: post) = some t ∧
      firstTrimmedText q [sel] = some t) := by
  constructor
  · intro α query pre post sel hpre hsel
    rw [firstNonEmptyChain_skip query pre _ hpre, firstNonEmptyChain_head query sel post hsel,
      firstNonEmptyChain_head query sel [] hsel]
    exact ⟨rfl, rfl⟩
  · intro q pre post sel t hpre hsel
    rw [firstTrimmedText_skip q pre _ hpre]
    simp [firstTrimmedText, hsel]

/-- Witness for C7: chains where only the middle candidate matches. -/
theorem c7_selector_chain_witness :
    firstNonEmptyChain (fun s => if s = "b" then [1] else ([] : List Nat)) (["a"] ++ "b" :: ["c"]) = [1] ∧
    firstTrimmedText (fun s => if s = "n" then some (DomNode.mk none (some " Jane ")) else none)
      (["m"] ++ "n" :: ["o"]) = some "Jane" := by
  constructor
  · have h := (c7_selector_chain.1 Nat (fun s => if s = "b" then [1] else []) ["a"] ["c"] "b"
      (by decide) (by decide)).1
    simpa using h
  · have h := (c7_selector_chain.2 (fun s => if s = "n" then some (DomNode.mk none (some " Jane ")) else none)
      ["m"] ["o"] "n" "Jane" (by decide) (by decide)).1
    simpa using h

theorem extractProfileUrlGo_eq_none (elem : ElemHandle) (sels : List String)
    (h : ∀ sel ∈ sels, ∀ href, (elem.query sel).bind DomNode.href = some href →
      jsIncludes href "/in/" = false) :
    extractProfileUrlGo elem sels = none := by
  induction sels with
  | nil => rfl
  | cons sel rest ih =>
    have ih' := ih (fun s hs => h s (List.mem_cons_of_mem _ hs))
    cases hq : (elem.query sel).bind DomNode.href with
    | none => simp [extractProfileUrlGo, hq, ih']
    | some href =>
      have hmiss := h sel (List.mem_cons_self sel rest) href hq
      simp [extractProfileUrlGo, hq, hmiss, ih']

theorem extractProfileUrlGo_some (elem : ElemHandle) (sels : List String) (u : String)
    (h : extractProfileUrlGo elem sels = some u) :
    ∃ href, jsIncludes href "/in/" = true ∧ u = cleanProfileUrl href := by
  induction sels with
  | nil => simp [extractProfileUrlGo] at h
  | cons sel rest ih =>
    cases hq : (elem.query sel).bind DomNode.href with
    | none =>
      rw [extractProfileUrlGo, hq] at h
      exact ih h
    | some href =>
      by_cases hin : jsIncludes href "/in/" = true
      · simp only [extractProfileUrlGo, hq, hin, if_true, Option.some.injEq] at h
        exact ⟨href, hin, h.symm⟩
      · simp [extractProfileUrlGo, hq, hin] at h
        exact ih h

/-- C5: an element none of whose link selectors yields an href containing
"/in/" is skipped (the extractor returns null and the element contributes no
record); any produced record's profileUrl comes from such an href (never
null or a placeholder); and a record whose URL is found but whose headline
chain fails is kept with the headline absent. -/
theorem c5_skip_without_profile_url (elem : ElemHandle) (index : Nat) :
    ((∀ sel ∈ linkSelectors, ∀ href, (elem.query sel).bind DomNode.href = some href →
        jsIncludes href "/in/" = false) →
      extractSingleProfile elem index = none) ∧
    (∀ p, extractSingleProfile elem index = some p →
      ∃ href, jsIncludes href "/in/" = true ∧ p.profileUrl = cleanProfileUrl href) ∧
    (¬extractProfileUrl elem = none → extractProfileHeadline elem = none →
      ∃ p, extractSingleProfile elem index = some p ∧ p.headline = none) := by
  refine ⟨fun hmiss => ?_, fun p hp => ?_, fun hurl hhead => ?_⟩
  · have h0 : extractProfileUrl elem = none := extractProfileUrlGo_eq_none elem linkSelectors hmiss
    simp [extractSingleProfile, h0]
  · cases hu : extractProfileUrl elem with
    | none => simp [extractSingleProfile, hu] at hp
    | some u =>
      obtain ⟨href, hin, rfl⟩ := extractProfileUrlGo_some elem linkSelectors u hu
      refine ⟨href, hin, ?_⟩
      rw [extractSingleProfile, hu] at hp
      cases hp
      rfl
  · cases hu : extractProfileUrl elem with
    | none => exact absurd hu hurl
    | some u =>
      refine ⟨⟨extractProfileName elem index, u, extractProfileHeadline elem⟩, ?_, hhead⟩
      rw [extractSingleProfile, hu]

/-- Witness for C5: an element without any matching href is skipped; an
element with a profile href but no headline yields a record with the
headline absent. -/
theorem c5_skip_without_profile_url_witness :
    extractSingleProfile (ElemHandle.mk (fun _ => none) none) 0 = none ∧
    (∃ p, extractSingleProfile
        (ElemHandle.mk (fun s => if s = "a[href*=\"/in/\"]"
          then some (DomNode.mk (some "/in/alice") none) else none) none) 0 = some p ∧
      p.headline = none) :=
  ⟨(c5_skip_without_profile_url (ElemHandle.mk (fun _ => none) none) 0).1
      (fun _ _ href hq => by simp at hq),
   (c5_skip_without_profile_url
      (ElemHandle.mk (fun s => if s = "a[href*=\"/in/\"]"
        then some (DomNode.mk (some "/in/alice") none) else none) none) 0).2.2
      (by decide) (by decide)⟩

theorem isPrefixOf_append_of_isPrefixOf {p a : List Char} (b : List Char)
    (h : p.isPrefixOf a = true) : p.isPrefixOf (a ++ b) = true := by
  induction p generalizing a with
  | nil => cases a ++ b <;> rfl
  | cons x xs ih =>
    cases a with
    | nil => exact Bool.noConfusion h
    | cons y ys =>
      show (x == y && xs.isPrefixOf (ys ++ b)) = true
      have h' : (x == y && xs.isPrefixOf ys) = true := h
      simp only [Bool.and_eq_true] at h' ⊢
      exact ⟨h'.1, ih h'.2⟩

theorem cleanProfileUrl_no_query (u : String) :
    (cleanProfileUrl u).data.count '?' = 0 := by
  have hcut : ∀ c ∈ (jsSplitHead u '?').data, ¬c = '?' := by
    intro c hc
    have := List.mem_takeWhile_imp (p := fun a => a != '?') hc
    simpa using this
  rw [cleanProfileUrl]
  by_cases h : jsStartsWith (jsSplitHead u '?') "http" = true
  · rw [if_pos h]
    exact List.count_eq_zero.mpr (fun hmem => hcut _ hmem rfl)
  · rw [if_neg h, data_append, List.count_append]
    have h1 : ("https://www.linkedin.com" : String).data.count '?' = 0 := by decide
    have h2 : (jsSplitHead u '?').data.count '?' = 0 :=
      List.count_eq_zero.mpr (fun hmem => hcut _ hmem rfl)
    rw [h1, h2]

theorem cleanProfileUrl_absolute (u : String) :
    jsStartsWith (cleanProfileUrl u) "http" = true := by
  rw [cleanProfileUrl]
  by_cases h : jsStartsWith (jsSplitHead u '?') "http" = true
  · rw [if_pos h]
    exact h
  · rw [if_neg h]
    show ("http" : String).data.isPrefixOf (("https://www.linkedin.com" ++ jsSplitHead u '?').data) = true
    rw [data_append]
    exact isPrefixOf_append_of_isPrefixOf _ (by decide)

/-- C10: every profileUrl in a returned search record is the cleaned form of
a raw href: truncated at the first question mark (so it contains no query
string) and prefixed with the host when not already absolute, hence always
starting with "http". -/
theorem c10_profileUrl_normalized (elem : ElemHandle) (index : Nat) (p : LinkedInProfileLink)
    (h : extractSingleProfile elem index = some p) :
    (∃ href, p.profileUrl = cleanProfileUrl href) ∧
    p.profileUrl.data.count '?' = 0 ∧
    jsStartsWith p.profileUrl "http" = true := by
  cases hu : extractProfileUrl elem with
  | none => simp [extractSingleProfile, hu] at h
  | some u =>
    obtain ⟨href, _, rfl⟩ := extractProfileUrlGo_some elem linkSelectors u hu
    rw [extractSingleProfile, hu] at h
    cases h
    exact ⟨⟨href, rfl⟩, cleanProfileUrl_no_query href, cleanProfileUrl_absolute href⟩

/-- Witness for C10: a tracking-parameter href is truncated and prefixed. -/
theorem c10_profileUrl_normalized_witness :
    extractSingleProfile (ElemHandle.mk (fun s => if s = "a[href*=\"/in/\"]"
        then some (DomNode.mk (some "/in/bob?trk=search") none) else none) none) 0 =
      some (LinkedInProfileLink.mk "Profile 1" "https://www.linkedin.com/in/bob" none) ∧
    (("https://www.linkedin.com/in/bob" : String).data.count '?' = 0 ∧
      jsStartsWith "https://www.linkedin.com/in/bob" "http" = true) :=
  ⟨by decide,
   (c10_profileUrl_normalized (ElemHandle.mk (fun s => if s = "a[href*=\"/in/\"]"
      then some (DomNode.mk (some "/in/bob?trk=search") none) else none) none) 0
      (LinkedInProfileLink.mk "Profile 1" "https://www.linkedin.com/in/bob" none) (by decide)).2⟩

/-- C6: when a results container is present but every row selector yields no
element, the search handler returns the structured result with count zero
and an empty profile list, not an error. -/
theorem c6_zero_rows_empty_result (page : SearchPage)
    (hc : ∃ s ∈ searchSelectors, page.hasSelector s = true)
    (hr : ∀ s ∈ profileSelectors, page.queryAll s = []) :
    handleSearchPeople page = SearchToolResult.mk true 0 [] := by
  have h0 : getProfileElements page = [] := by
    rw [getProfileElements]
    have := firstNonEmptyChain_skip page.queryAll profileSelectors [] hr
    simpa using this
  simp [handleSearchPeople, extractProfileLinks, h0]

/-- Witness for C6: a page whose container selector resolves but whose row
selectors all return empty lists. -/
theorem c6_zero_rows_empty_result_witness :
    handleSearchPeople
      (SearchPage.mk (fun s => s == ".search-results-container") (fun _ => [])) =
      SearchToolResult.mk true 0 [] :=
  c6_zero_rows_empty_result
    (SearchPage.mk (fun s => s == ".search-results-container") (fun _ => []))
    ⟨".search-results-container", by decide, by decide⟩
    (fun s _ => rfl)

/-- C8 (amended): optional fields whose chains fail are absent, never
placeholders; the full-profile name falls back to the "Unknown" sentinel and
experience sub-fields to their "Unknown ..." sentinels when the item is
otherwise salvageable; but a search-result record whose name selectors all
fail carries the positional placeholder "Profile (index+1)", not "Unknown". -/
theorem c8_fallback_sentinels (page : ProfilePage) (u : String) (elem : ElemHandle)
    (i : Nat) (e : ElemHandle) :
    ((∀ s ∈ pageNameSelectors, trimmedTextAt page.query s = none) →
      (extractProfileData page u).name = "Unknown") ∧
    ((∀ s ∈ pageHeadlineSelectors, trimmedTextAt page.query s = none) →
      (extractProfileData page u).headline = none) ∧
    ((∀ s ∈ pageLocationSelectors, trimmedTextAt page.query s = none) →
      (extractProfileData page u).location = none) ∧
    ((∀ s ∈ aboutSelectors, trimmedTextAt page.query s = none) →
      (extractProfileData page u).about = none) ∧
    (firstTrimmedText e.query companySelectors = none →
      ∀ item, extractExperienceItem e = some item → item.company = "Unknown Company") ∧
    ((∀ s ∈ nameSelectors, trimmedTextAt elem.query s = none) →
      extractProfileName elem i = "Profile " ++ toString (i + 1)) := by
  refine ⟨fun h => ?_, fun h => ?_, fun h => ?_, fun h => ?_,
    fun hco item hitem => ?_, fun h => ?_⟩
  · simp [extractProfileData, extractProfileNameFromPage, firstTrimmedText_all_none _ _ h]
  · simp [extractProfileData, extractProfileHeadlineFromPage, firstTrimmedText_all_none _ _ h]
  · simp [extractProfileData, extractProfileLocation, firstTrimmedText_all_none _ _ h]
  · simp [extractProfileData, extractProfileAbout, firstTrimmedText_all_none _ _ h]
  · cases hti : firstTrimmedText e.query titleSelectors with
    | none => simp [extractExperienceItem, hti, hco] at hitem
    | some t =>
      simp [extractExperienceItem, hti, hco] at hitem
      rw [← hitem]
  · simp [extractProfileName, firstTrimmedText_all_none _ _ h]

/-- Counterexample for C8 as stated: a search-result element with a valid
profile link but no extractable name yields the positional placeholder
"Profile 1", not the "Unknown" sentinel the claim asserts. -/
theorem c8_counterexample :
    extractSingleProfile (ElemHandle.mk (fun s => if s = "a[href*=\"/in/\"]"
        then some (DomNode.mk (some "/in/carol") none) else none) none) 0 =
      some (LinkedInProfileLink.mk "Profile 1" "https://www.linkedin.com/in/carol" none) ∧
    ¬"Profile 1" = "Unknown" := by
  exact ⟨by decide, by decide⟩

/-- Witness for C8 (amended): the empty profile page gives the Unknown
sentinel with absent optional fields; the empty search row gives the
positional placeholder. -/
theorem c8_fallback_sentinels_witness :
    (extractProfileData (ProfilePage.mk (fun _ => none) (fun _ => [])) "u").name = "Unknown" ∧
    (extractProfileData (ProfilePage.mk (fun _ => none) (fun _ => [])) "u").headline = none ∧
    extractProfileName (ElemHandle.mk (fun _ => none) none) 0 = "Profile " ++ toString (0 + 1) := by
  have h := c8_fallback_sentinels (ProfilePage.mk (fun _ => none) (fun _ => [])) "u"
    (ElemHandle.mk (fun _ => none) none) 0 (ElemHandle.mk (fun _ => none) none)
  exact ⟨h.1 (by decide), h.2.1 (by decide), h.2.2.2.2.2 (by decide)⟩

theorem buildSearchUrl_ne_loginPageUrl (filters : SearchFilters) :
    ¬buildSearchUrl filters = loginPageUrl := by
  intro h
  have hlen : (buildSearchUrl filters).data.length = loginPageUrl.data.length := by rw [h]
  rw [buildSearchUrl, data_append, data_append, List.length_append, List.length_append] at hlen
  have h1 : peopleSearchBaseUrl.data.length = 47 := by decide
  have h2 : ("?" : String).data.length = 1 := by decide
  have h3 : loginPageUrl.data.length = 30 := by decide
  rw [h1, h2, h3] at hlen
  omega

/-- C2: when the login wall is visible after the first navigation, exactly
one re-login attempt occurs (one navigation to the login page, at most one
credential submission); if it succeeds the operation re-navigates exactly
once more to the same encoded URL before extraction begins, and if it fails
the operation surfaces the login error with no extraction and no further
login attempts. -/
theorem c2_single_relogin (filters : SearchFilters) (env : BrowserEnv) (page : SearchPage)
    (hwall : env.loginWallVisible = true) :
    countEvent (searchPeople filters env page).1 (PageEvent.navigate loginPageUrl) = 1 ∧
    countEvent (searchPeople filters env page).1 PageEvent.submitCredentials ≤ 1 ∧
    ((loginToLinkedIn env).2 = true →
      (searchPeople filters env page).1 =
        PageEvent.navigate (buildSearchUrl filters) :: (loginToLinkedIn env).1 ++
          [PageEvent.navigate (buildSearchUrl filters), PageEvent.extract] ∧
      countEvent (searchPeople filters env page).1 (PageEvent.navigate (buildSearchUrl filters)) = 2 ∧
      (searchPeople filters env page).2 = Except.ok (extractProfileLinks page)) ∧
    ((loginToLinkedIn env).2 = false →
      (searchPeople filters env page).2 = Except.error "Failed to log in to LinkedIn" ∧
      countEvent (searchPeople filters env page).1 PageEvent.extract = 0 ∧
      countEvent (searchPeople filters env page).1 (PageEvent.navigate (buildSearchUrl filters)) = 1) := by
  have hne : ¬buildSearchUrl filters = loginPageUrl := buildSearchUrl_ne_loginPageUrl filters
  have hne' : ¬loginPageUrl = buildSearchUrl filters := fun hh => hne hh.symm
  cases h1 : urlIndicatesLoggedIn env.urlAfterLoginNav with
  | true =>
    have hlogin : loginToLinkedIn env = ([PageEvent.navigate loginPageUrl], true) := by
      simp [loginToLinkedIn, h1]
    have hsp : searchPeople filters env page =
        ([PageEvent.navigate (buildSearchUrl filters), PageEvent.navigate loginPageUrl,
          PageEvent.navigate (buildSearchUrl filters), PageEvent.extract],
         Except.ok (extractProfileLinks page)) := by
      simp [searchPeople, hwall, hlogin]
    rw [hsp, hlogin]
    refine ⟨?_, ?_, fun _ => ⟨rfl, ?_, rfl⟩, fun hc => by simp at hc⟩
    · simp [countEvent, hne]
    · simp [countEvent]
    · simp [countEvent, hne']
  | false =>
    cases h2 : jsIncludes env.urlAfterSubmit "/challenge/" with
    | true =>
      have hlogin : loginToLinkedIn env =
          ([PageEvent.navigate loginPageUrl, PageEvent.submitCredentials], false) := by
        simp [loginToLinkedIn, h1, h2]
      have hsp : searchPeople filters env page =
          ([PageEvent.navigate (buildSearchUrl filters), PageEvent.navigate loginPageUrl,
            PageEvent.submitCredentials],
           Except.error "Failed to log in to LinkedIn") := by
        simp [searchPeople, hwall, hlogin]
      rw [hsp, hlogin]
      refine ⟨?_, ?_, fun hc => by simp at hc, fun _ => ⟨rfl, ?_, ?_⟩⟩
      · simp [countEvent, hne]
      · simp [countEvent]
      · simp [countEvent]
      · simp [countEvent, hne']
    | false =>
      cases h3 : urlIndicatesLoggedIn env.urlAfterSubmit with
      | true =>
        have hlogin : loginToLinkedIn env =
            ([PageEvent.navigate loginPageUrl, PageEvent.submitCredentials,
              PageEvent.saveCookies], true) := by
          simp [loginToLinkedIn, h1, h2, h3]
        have hsp : searchPeople filters env page =
            ([PageEvent.navigate (buildSearchUrl filters), PageEvent.navigate loginPageUrl,
              PageEvent.submitCredentials, PageEvent.saveCookies,
              PageEvent.navigate (buildSearchUrl filters), PageEvent.extract],
             Except.ok (extractProfileLinks page)) := by
          simp [searchPeople, hwall, hlogin]
        rw [hsp, hlogin]
        refine ⟨?_, ?_, fun _ => ⟨rfl, ?_, rfl⟩, fun hc => by simp at hc⟩
        · simp [countEvent, hne]
        · simp [countEvent]
        · simp [countEvent, hne']
      | false =>
        have hlogin : loginToLinkedIn env =
            ([PageEvent.navigate loginPageUrl, PageEvent.submitCredentials], false) := by
          simp [loginToLinkedIn, h1, h2, h3]
        have hsp : searchPeople filters env page =
            ([PageEvent.navigate (buildSearchUrl filters), PageEvent.navigate loginPageUrl,
              PageEvent.submitCredentials],
             Except.error "Failed to log in to LinkedIn") := by
          simp [searchPeople, hwall, hlogin]
        rw [hsp, hlogin]
        refine ⟨?_, ?_, fun hc => by simp at hc, fun _ => ⟨rfl, ?_, ?_⟩⟩
        · simp [countEvent, hne]
        · simp [countEvent]
        · simp [countEvent]
        · simp [countEvent, hne']

/-- Witness for C2: a wall with an already-authenticated session (success
path) and a wall with a failing login (error path). -/
theorem c2_single_relogin_witness :
    countEvent (searchPeople (SearchFilters.mk none none none)
        (BrowserEnv.mk true "https://www.linkedin.com/feed/" "")
        (SearchPage.mk (fun _ => false) (fun _ => []))).1 (PageEvent.navigate loginPageUrl) = 1 ∧
    (searchPeople (SearchFilters.mk none none none)
        (BrowserEnv.mk true "https://www.linkedin.com/login" "https://www.linkedin.com/login")
        (SearchPage.mk (fun _ => false) (fun _ => []))).2 =
      Except.error "Failed to log in to LinkedIn" := by
  constructor
  · exact (c2_single_relogin (SearchFilters.mk none none none)
      (BrowserEnv.mk true "https://www.linkedin.com/feed/" "")
      (SearchPage.mk (fun _ => false) (fun _ => [])) rfl).1
  · exact ((c2_single_relogin (SearchFilters.mk none none none)
      (BrowserEnv.mk true "https://www.linkedin.com/login" "https://www.linkedin.com/login")
      (SearchPage.mk (fun _ => false) (fun _ => [])) rfl).2.2.2 (by decide)).1

end Scraper


